import Mathlib

/-!
Verification of the `account_ebics` addon suite (Noviat) against its
natural-language specification.

The Python sources are shallowly embedded: each Odoo model method that a
claim refers to is translated into an executable Lean definition over
explicit record types, and the claims are settled as theorems about these
definitions.

Embedded sources:
* `account_ebics/models/ebics_config.py`   (namespace `EbicsConfig`)
* `account_ebics/wizards/ebics_xfer.py`    (namespace `EbicsXfer`)
* `account_ebics/models/ebics_file.py`     (namespace `EbicsFile`)
* `account_ebics/models/ebics_userid.py`   (namespace `EbicsUserID`)
-/

namespace AccountEbics

/-! ### Order number sequencer (ebics_config.py and ebics_xfer.py) -/

/-- A character in `A`-`Z`. -/
def isUpperAZ (c : Char) : Bool := 'A' ≤ c && c ≤ 'Z'

/-- A character in `A`-`Z` or `0`-`9` (the order-number digit alphabet). -/
def isOrderDigit (c : Char) : Bool := isUpperAZ c || ('0' ≤ c && c ≤ '9')

/-- `ebics_config.py` `_check_order_number` (lines 173-191): the stored
order number must be 4 characters matching `[A-Z]{1}[A-Z0-9]{3}`;
returns `true` when the constraint accepts the value, `false` when it
raises `UserError`. -/
def check_order_number (s : String) : Bool :=
  match s.toList with
  | [c0, c1, c2, c3] => isUpperAZ c0 && isOrderDigit c1 && isOrderDigit c2 && isOrderDigit c3
  | _ => false

/-- Python `chr(ord(c) + 1)`. -/
def incChar (c : Char) : Char := Char.ofNat (c.toNat + 1)

namespace EbicsConfig

/-- The carry loop of `ebics_config.py` `_update_order_number`
(lines 230-240), acting on the reversed character list
(the Python loop walks `reversed(o_list)` mutating in place):
`'9'` rolls to `'A'` and stops, `'Z'` is reset to `'0'` and the carry
continues, any other character is incremented and the loop stops. -/
def carry : List Char → List Char
  | [] => []
  | c :: rest =>
    if c = '9' then 'A' :: rest
    else if c = 'Z' then '0' :: carry rest
    else incChar c :: rest

/-- `ebics_config.py` `_update_order_number` (lines 229-244): the value
written into `order_number` from the current `OrderID`. -/
def _update_order_number (OrderID : String) : String :=
  let next_order_number := String.mk (carry OrderID.toList.reverse).reverse
  if next_order_number = "ZZZZ" then "A000" else next_order_number

end EbicsConfig

namespace EbicsXfer

/-- The carry loop of `ebics_xfer.py` `_update_order_number`
(lines 627-636): `'9'` rolls to `'A'` and stops, `'Z'` is left
unchanged and the carry continues, any other character is incremented
and the loop stops. -/
def carry : List Char → List Char
  | [] => []
  | c :: rest =>
    if c = '9' then 'A' :: rest
    else if c = 'Z' then c :: carry rest
    else incChar c :: rest

/-- `ebics_xfer.py` `_update_order_number` (lines 626-640): the value
written into `ebics_config_id.order_number` from the current `OrderID`. -/
def _update_order_number (OrderID : String) : String :=
  let next_nr := String.mk (carry OrderID.toList.reverse).reverse
  if next_nr = "ZZZZ" then "A000" else next_nr

/-- Outcome of the protocol-library upload call inside the `try` block of
`_ebics_upload` (`client.BTU` / `client.FUL` / `client.upload`):
either an OrderID, or one of the exception classes caught by the
`except` clauses (lines 431-452). -/
inductive UploadOutcome where
  | success (orderId : String)
  | functionalError (message code : String)
  | technicalError (message code : String)
  | verificationError
  | unknownError (tb : String)
deriving DecidableEq, Repr

/-- Inputs of one `_ebics_upload` call that the embedding keeps explicit:
the protocol version of the connection, whether `_setup_client` returned a
client (it returns `False` and logs on failure, lines 520-529), and the
result of the wire call. -/
structure UploadEnv where
  ebics_version : String
  client_ok : Bool
  outcome : UploadOutcome
deriving DecidableEq, Repr

/-- Observable result of `_ebics_upload` (lines 366-459): the transfer
log lines, whether an `ebics.file` record in state `done` was created,
and the persisted `order_number` of the connection after the call. -/
structure UploadResult where
  note : List String
  file_created : Bool
  order_number : String
deriving DecidableEq, Repr

/-- `ebics_xfer.py` `_ebics_upload` (lines 366-459), restricted to its
effect on the log, the created file and the persisted order number.
The `try` block uploads and creates the `ebics.file` on success; each
`except` clause appends to `note` and continues; afterwards — inside
`if client:` but regardless of the outcome — the order number
of the connection is advanced via `ebics_config_id._update_order_number`
whenever `ebics_version == "H003"` (lines 454-456). -/
def _ebics_upload (env : UploadEnv) (order_number : String) : UploadResult :=
  if env.client_ok then
    let (note, file_created) :=
      match env.outcome with
      | .success oid =>
          (["EBICS File has been uploaded (OrderID " ++ oid ++ ")."], true)
      | .functionalError m c =>
          (["EBICS Functional Error:", m ++ " (code: " ++ c ++ ")"], false)
      | .technicalError m c =>
          (["EBICS Technical Error:", m ++ " (code: " ++ c ++ ")"], false)
      | .verificationError =>
          (["EBICS Verification Error:", "The EBICS response could not be verified."],
            false)
      | .unknownError tb => (["Unknown Error", tb], false)
    let order_number :=
      if env.ebics_version = "H003" then
        AccountEbics.EbicsConfig._update_order_number order_number
      else order_number
    { note := note, file_created := file_created, order_number := order_number }
  else { note := [], file_created := false, order_number := order_number }

/-- An `ebics.file.format` record as used by `ebics_download`
(only the fields the loop reads for reporting). -/
structure FileFormat where
  name : String
  order_type : String
deriving DecidableEq, Repr

/-- Outcome of downloading one file format inside the `for df in
download_formats` loop of `ebics_download` (lines 239-329): either the
payload was received and turned into `ebics.file` records, or one of
the exception classes caught by the `except` clauses was raised. -/
inductive DownloadOutcome where
  | success (files : List String)
  | functionalError (message code : String)
  | technicalError (message code : String)
  | verificationError
  | userError (message : String)
  | unknownError (tb : String)
deriving DecidableEq, Repr

/-- The `ebics.file` records contributed by the download of one format. -/
def outcome_files : DownloadOutcome → List String
  | .success fs => fs
  | _ => []

/-- Whether the outcome is one of the caught error classes. -/
def outcome_err : DownloadOutcome → Bool
  | .success _ => false
  | _ => true

/-- The note lines one `except` clause of `ebics_download` appends for
file format `df` (lines 268-324); a successful download appends
nothing inside the loop. -/
def download_note (df : FileFormat) : DownloadOutcome → List String
  | .success _ => []
  | .functionalError m c =>
      ["EBICS Functional Error during download of File Format " ++ df.name
        ++ " (" ++ df.order_type ++ "):", m ++ " (code: " ++ c ++ ")"]
  | .technicalError m c =>
      ["EBICS Technical Error during download of File Format " ++ df.name
        ++ " (" ++ df.order_type ++ "):", m ++ " (code: " ++ c ++ ")"]
  | .verificationError =>
      ["EBICS Verification Error during download of File Format " ++ df.name
        ++ " (" ++ df.order_type ++ "):", "The EBICS response could not be verified."]
  | .userError m =>
      ["Error detected during download of File Format " ++ df.name
        ++ " (" ++ df.order_type ++ "):", m]
  | .unknownError tb =>
      ["Unknown Error during download of File Format " ++ df.name
        ++ " (" ++ df.order_type ++ "):", tb]

/-- The `for df in download_formats` loop of `ebics_download`
(lines 239-329), threading the `err_cnt` counter, the `note` log and
the accumulated `ebics_files` recordset: every format is attempted; an
error adds one to `err_cnt` and appends its report to `note`, a
success appends the created files; the loop never stops early. -/
def ebics_download_loop (outcome : FileFormat → DownloadOutcome) :
    List FileFormat → Nat → List String → List String →
    Nat × List String × List String
  | [], err_cnt, note, files => (err_cnt, note, files)
  | df :: rest, err_cnt, note, files =>
    match outcome df with
    | .success fs => ebics_download_loop outcome rest err_cnt note (files ++ fs)
    | o => ebics_download_loop outcome rest (err_cnt + 1) (note ++ download_note df o) files

/-- `ebics_xfer.py` `ebics_download` (lines 217-355), restricted to the
per-format transfer loop: returns the error count, the transfer log and
the created `ebics.file` records. -/
def ebics_download (outcome : FileFormat → DownloadOutcome)
    (download_formats : List FileFormat) : Nat × List String × List String :=
  ebics_download_loop outcome download_formats 0 [] []

end EbicsXfer

namespace EbicsFile

/-- One entry of the `res["notifications"]` list: `ntype` models the
dict key `"type"` (`"error"` or `"warning"`). -/
structure Notification where
  ntype : String
  message : String
deriving DecidableEq, Repr

/-- The `res` dict threaded through the processing methods of
`ebics_file.py`: `{"statement_ids": [], "notifications": []}`. -/
structure ProcessRes where
  statement_ids : List Nat
  notifications : List Notification
deriving DecidableEq, Repr

/-- `res["notifications"].append({"type": "error", "message": message})`. -/
def addError (res : ProcessRes) (message : String) : ProcessRes :=
  { res with notifications :=
      res.notifications ++ [{ ntype := "error", message := message }] }

/-! #### `process` (ebics_file.py lines 105-117) -/

/-- The keys of the `_file_format_methods` dispatch table
(lines 132-159); every entry carries a `process` callback. -/
def ff_process_method_keys : List String :=
  ["cfonb120", "camt.052", "camt.053", "camt.054", "pain.002"]

/-- An `ebics.file` record restricted to the fields `process` reads:
its `state` and the `download_process_method` of its format. -/
structure EbicsFileRec where
  state : String
  download_process_method : String
deriving DecidableEq, Repr

/-- `ebics_file.py` `process` (lines 105-117): looks up the process
method of the format in `_file_format_methods`; when found, runs it and sets
`state` to `"done"` (there is no check of the current state); when the
format is not in the table, `_process_undefined_format` raises
`UserError`. The `Bool` component records that the format-specific
pipeline of the import was executed. -/
def process (f : EbicsFileRec) : Except String (EbicsFileRec × Bool) :=
  if f.download_process_method ∈ ff_process_method_keys then
    .ok ({ f with state := "done" }, true)
  else
    .error ("The current version of the account_ebics module has no support "
      ++ "to automatically process EBICS files with format "
      ++ f.download_process_method ++ ".")

/-! #### Duplicate statement check (ebics_file.py lines 19, 314-346) -/

/-- An `account.bank.statement` record restricted to the fields read by
`_statement_duplicate_check`. -/
structure Statement where
  id : Nat
  name : String
  company_id : Nat
  date : String
  import_format : String
deriving DecidableEq, Repr

/-- `ebics_file.py` line 19. -/
def DUP_CHECK_FORMATS : List String := ["cfonb120", "camt053"]

/-- The `search_count` domain of lines 324-332: statements other than
`st` itself with the same name, company, date and import format;
`db` is the full `account.bank.statement` table. -/
def dup_count (db : List Statement) (st : Statement) : Nat :=
  (db.filter fun o => decide (o.id ≠ st.id) && decide (o.name = st.name)
      && decide (o.company_id = st.company_id) && decide (o.date = st.date)
      && decide (o.import_format = st.import_format)).length

/-- The warning message of lines 334-338. -/
def dup_message (st : Statement) : String :=
  "Statement " ++ st.name ++ " dated " ++ st.date ++ " has already been imported."

/-- `ebics_file.py` `_statement_duplicate_check` (lines 314-346):
for each newly created statement whose `import_format` is in
`DUP_CHECK_FORMATS`, if any other statement with the same
(name, company, date, import_format) exists in the table, append a
warning, drop the id of the statement from `res["statement_ids"]`, remove
it from the returned recordset and delete it. Returns the updated
`res`, the surviving statements and the deleted (`unlink`ed) ones. -/
def _statement_duplicate_check (db : List Statement) (res : ProcessRes)
    (statements : List Statement) : ProcessRes × List Statement × List Statement :=
  let to_unlink : List Statement :=
    (statements.filter (fun st => decide (st.import_format ∈ DUP_CHECK_FORMATS))).filter
      (fun st => decide (0 < dup_count db st))
  let warnings : List Notification :=
    to_unlink.map (fun st => { ntype := "warning", message := dup_message st })
  let unlink_ids : List Nat := to_unlink.map (fun u => u.id)
  let res := { res with notifications := res.notifications ++ warnings }
  let res :=
    { res with statement_ids :=
        res.statement_ids.filter (fun x => decide (x ∉ unlink_ids)) }
  (res, statements.filter (fun st => decide (st ∉ to_unlink)), to_unlink)

/-! #### Journal lookup (ebics_file.py lines 181-227) -/

/-- A `res.currency` record. -/
structure Currency where
  id : Nat
  name : String
deriving DecidableEq, Repr

/-- An `account.journal` record restricted to the fields read by
`_lookup_journal`: its type, the sanitized account number of its bank
account, its own currency (when set) and the currency of its company. -/
structure Journal where
  id : Nat
  jtype : String
  sanitized_acc_number : String
  currency_id : Option Nat
  company_currency_id : Nat
  company_id : Nat
deriving DecidableEq, Repr

/-- The searchable records backing the ORM `search` calls of
`_lookup_journal`, in search order. -/
structure Env where
  currencies : List Currency
  journals : List Journal
deriving Repr

/-- `a :: as` is a prefix of the second list. -/
def listHasPre [DecidableEq α] : List α → List α → Bool
  | [], _ => true
  | _ :: _, [] => false
  | a :: as, b :: bs => decide (a = b) && listHasPre as bs

/-- The needle occurs as a contiguous sublist of the haystack. -/
def listHasSub [DecidableEq α] (needle : List α) : List α → Bool
  | [] => needle.isEmpty
  | b :: bs => listHasPre needle (b :: bs) || listHasSub needle bs

/-- The characters of a string, lowercased. -/
def lowerChars (s : String) : List Char := s.toList.map Char.toLower

/-- The ORM `=ilike` operator on a plain value: case-insensitive
equality. -/
def ilike_eq (a b : String) : Bool := decide (lowerChars a = lowerChars b)

/-- The ORM `ilike` operator on a plain value: case-insensitive
containment (the value is wrapped in `%...%`). -/
def ilike_contains (needle hay : String) : Bool :=
  listHasSub (lowerChars needle) (lowerChars hay)

/-- `self.env["res.currency"].search([("name", "=ilike", currency_code)],
limit=1)` (lines 182-184). -/
def search_currency (env : Env) (currency_code : String) : Option Currency :=
  (env.currencies.filter fun c => ilike_eq c.name currency_code).head?

/-- The journal `search` of lines 191-200: bank journals whose bank
account of which has a sanitized account number containing `acc_number`
(case-insensitively). -/
def candidate_journals (env : Env) (acc_number : String) : List Journal :=
  env.journals.filter fun j =>
    decide (j.jtype = "bank") && ilike_contains acc_number j.sanitized_acc_number

/-- The candidates whose currency (`jrnl.currency_id or
jrnl.company_id.currency_id`, lines 211-217) equals the statement
currency. -/
def compatible_journals (env : Env) (acc_number : String) (currency : Currency) :
    List Journal :=
  (candidate_journals env acc_number).filter fun j =>
    decide (j.currency_id.getD j.company_currency_id = currency.id)

/-- The error message of lines 202-208 and 220-225. -/
def no_journal_message (acc_number currency_code : String) : String :=
  "No financial journal found for Account Number " ++ acc_number
    ++ ", Currency " ++ currency_code

/-- `ebics_file.py` `_lookup_journal` (lines 181-227): resolve the
(sanitized account number, currency code) of one statement section to a
currency and a journal; on an unknown currency or when no candidate
journal is currency-compatible, an error naming the account/currency is
appended to `res["notifications"]` and no journal is returned; the
`for jrnl in journals` loop picks the first currency-compatible
candidate and breaks. -/
def _lookup_journal (env : Env) (res : ProcessRes) (acc_number currency_code : String) :
    ProcessRes × Option Currency × Option Journal :=
  match search_currency env currency_code with
  | none => (addError res ("Currency " ++ currency_code ++ " not found."), none, none)
  | some currency =>
    if candidate_journals env acc_number = [] then
      (addError res (no_journal_message acc_number currency_code), some currency, none)
    else
      match (compatible_journals env acc_number currency).head? with
      | none =>
          (addError res (no_journal_message acc_number currency_code),
            some currency, none)
      | some journal => (res, some currency, some journal)

/-- The (currency, journal) component of `_lookup_journal`, which does
not depend on `res`. -/
def lookup_journal_pure (env : Env) (acc_number currency_code : String) :
    Option Currency × Option Journal :=
  match search_currency env currency_code with
  | none => (none, none)
  | some currency =>
    if candidate_journals env acc_number = [] then (some currency, none)
    else
      match (compatible_journals env acc_number currency).head? with
      | none => (some currency, none)
      | some journal => (some currency, some journal)

/-! #### CAMT split (ebics_file.py lines 549-611) -/

/-- `odoo.addons.base.models.res_bank.sanitize_account_number`:
`re.sub(r"\W+", "", acc_number).upper()` — drop non-word characters
and uppercase. -/
def sanitize_account_number (acc_number : String) : String :=
  String.mk ((acc_number.toList.filter fun c => c.isAlphanum || c = '_').map
    Char.toUpper)

/-- One `Stmt`/`Rpt`/`Ntfctn` section of a downloaded CAMT document, as
read by `_split_camt`: the account identifier text
(`Acct/Id/IBAN` or `Acct/Id/Othr/Id`), the currency code
(`Acct/Ccy` or `Bal/Amt/@Ccy`) and its number of `Ntry` (transaction)
elements. -/
structure CamtSection where
  acc_id_text : String
  currency_code : String
  entries : Nat
deriving DecidableEq, Repr

/-- One entry of the `datas` list built by `_split_camt`
(lines 602-609); `data` stands for the re-serialized single-statement
document of the section. -/
structure CamtChunk where
  acc_number : String
  journal_id : Nat
  company_id : Nat
  data : CamtSection
deriving DecidableEq, Repr

/-- The account number `_split_camt` resolves for a section: sanitized,
with a trailing copy of the currency code stripped (lines 570-587,
the COMMERZBANK quirk). -/
def camt_acc_number (s : CamtSection) : String :=
  let acc := sanitize_account_number s.acc_id_text
  if String.mk (acc.toList.drop (acc.toList.length - 3)) = s.currency_code then
    String.mk (acc.toList.take (acc.toList.length - 3))
  else acc

/-- The body of the `for i, stmt in enumerate(stmts)` loop of
`_split_camt` (lines 569-609) for one section: an empty account number
records an error and yields no chunk; a section without `Ntry` elements
is skipped silently; otherwise the journal lookup runs and only a
resolved section yields a chunk. -/
def _split_camt_step (env : Env) (res : ProcessRes) (stmt : CamtSection) :
    ProcessRes × Option CamtChunk :=
  if sanitize_account_number stmt.acc_id_text = "" then
    (addError res "No bank account number found.", none)
  else if stmt.entries = 0 then (res, none)
  else
    match _lookup_journal env res (camt_acc_number stmt) stmt.currency_code with
    | (res', some _, some journal) =>
        (res', some { acc_number := camt_acc_number stmt, journal_id := journal.id,
                      company_id := journal.company_id, data := stmt })
    | (res', _, _) => (res', none)

/-- `ebics_file.py` `_split_camt` (lines 549-611): fold the per-section
step over the sections of the document, accumulating notifications and the
`datas` chunk list. -/
def _split_camt (env : Env) (res : ProcessRes) :
    List CamtSection → ProcessRes × List CamtChunk
  | [] => (res, [])
  | stmt :: rest =>
    match _split_camt_step env res stmt with
    | (res', none) => _split_camt env res' rest
    | (res', some chunk) =>
        let (res'', datas) := _split_camt env res' rest
        (res'', chunk :: datas)

/-- A section with transactions resolves: nonempty sanitized account
number and a successful journal lookup. -/
def camt_resolves (env : Env) (s : CamtSection) : Bool :=
  decide (sanitize_account_number s.acc_id_text ≠ "") &&
    (lookup_journal_pure env (camt_acc_number s) s.currency_code).2.isSome

/-! #### CFONB split (ebics_file.py lines 363-408) -/

/-- One 120-character CFONB line, as read by `_split_cfonb`:
`rec_type = line[0:2]`, `currency_code = line[16:19]`,
`acc_number = line[21:32]`. -/
structure CfonbLine where
  rec_type : String
  currency_code : String
  acc_number : String
deriving DecidableEq, Repr

/-- One entry of the `datas` list built by `_split_cfonb`
(lines 397-405); `data` is the accumulated `st_lines` of the
statement. -/
structure CfonbChunk where
  acc_number : String
  journal_id : Nat
  company_id : Nat
  data : List CfonbLine
deriving DecidableEq, Repr

/-- The `for line in lines` loop of `_split_cfonb` (lines 383-407):
lines accumulate into `st_lines`; a `"04"` record marks the current
statement as having transactions; a `"07"` record terminates the
statement — if it had transactions the journal lookup runs on the
account/currency of the terminator and a resolved statement is appended to
`datas` — and resets the accumulator. -/
def _split_cfonb_loop (env : Env) :
    List CfonbLine → ProcessRes → List CfonbLine → Bool → List CfonbChunk →
    ProcessRes × List CfonbChunk
  | [], res, _, _, datas => (res, datas)
  | line :: rest, res, st_lines, transactions, datas =>
    let st_lines := st_lines ++ [line]
    let transactions := transactions || decide (line.rec_type = "04")
    if line.rec_type = "07" then
      if transactions then
        match _lookup_journal env res line.acc_number line.currency_code with
        | (res', some _, some journal) =>
            _split_cfonb_loop env rest res' [] false
              (datas ++ [{ acc_number := line.acc_number, journal_id := journal.id,
                           company_id := journal.company_id, data := st_lines }])
        | (res', _, _) => _split_cfonb_loop env rest res' [] false datas
      else _split_cfonb_loop env rest res [] false datas
    else _split_cfonb_loop env rest res st_lines transactions datas

/-- `ebics_file.py` `_split_cfonb` (lines 363-408), starting from an
empty accumulator. -/
def _split_cfonb (env : Env) (res : ProcessRes) (lines : List CfonbLine) :
    ProcessRes × List CfonbChunk :=
  _split_cfonb_loop env lines res [] false []

/-- A terminator line resolves: its (account number, currency code)
yield a journal. -/
def cfonb_resolves (env : Env) (l : CfonbLine) : Bool :=
  (lookup_journal_pure env l.acc_number l.currency_code).2.isSome

/-- The number of complete statements (groups of lines up to a `"07"`
terminator) containing at least one `"04"` transaction record, with
the running transactions flag as second argument. -/
def cfonb_tx_sections : List CfonbLine → Bool → Nat
  | [], _ => 0
  | line :: rest, transactions =>
    let transactions := transactions || decide (line.rec_type = "04")
    if line.rec_type = "07" then
      (if transactions then 1 else 0) + cfonb_tx_sections rest false
    else cfonb_tx_sections rest transactions

/-! #### Concrete sample records used in the evaluations below -/

/-- An empty `res` dict, as initialized by the processing methods. -/
def fxRes : ProcessRes := { statement_ids := [], notifications := [] }

/-- A sample currency. -/
def fxEUR : Currency := { id := 1, name := "EUR" }

/-- A bank journal on a sample Belgian IBAN, in company currency EUR. -/
def fxJournalA : Journal :=
  { id := 10, jtype := "bank", sanitized_acc_number := "BE48306947070286",
    currency_id := none, company_currency_id := 1, company_id := 100 }

/-- A second bank journal on the same IBAN, with its own EUR currency. -/
def fxJournalB : Journal :=
  { id := 20, jtype := "bank", sanitized_acc_number := "BE48306947070286",
    currency_id := some 1, company_currency_id := 1, company_id := 200 }

/-- An environment in which two journals match the sample IBAN in EUR. -/
def fxEnvAmbiguous : Env :=
  { currencies := [fxEUR], journals := [fxJournalA, fxJournalB] }

/-- An environment with a known currency but no journal at all. -/
def fxEnvNoJournal : Env := { currencies := [fxEUR], journals := [] }

/-- An environment in which exactly one journal matches the sample
IBAN (and its domestic account-number part) in EUR. -/
def fxEnvOneJournal : Env := { currencies := [fxEUR], journals := [fxJournalB] }

/-- A sample camt section holding one transaction entry. -/
def fxCamtTx : CamtSection :=
  { acc_id_text := "BE48306947070286", currency_code := "EUR", entries := 1 }

/-- A sample camt section with no transaction entries. -/
def fxCamtEmpty : CamtSection :=
  { acc_id_text := "BE48306947070286", currency_code := "EUR", entries := 0 }

/-- A sample cfonb statement: opening balance record, one transaction
record, closing balance (terminator) record, on the domestic part of
the sample IBAN. -/
def fxCfonbLines : List CfonbLine :=
  [{ rec_type := "01", currency_code := "EUR", acc_number := "30694707028" },
   { rec_type := "04", currency_code := "EUR", acc_number := "30694707028" },
   { rec_type := "07", currency_code := "EUR", acc_number := "30694707028" }]

/-- A pre-existing camt052 statement. -/
def fxStOld : Statement :=
  { id := 1, name := "ST240131", company_id := 5, date := "2024-01-31",
    import_format := "camt052" }

/-- A newly imported camt052 statement identical to `fxStOld` up to id. -/
def fxStNew : Statement :=
  { id := 2, name := "ST240131", company_id := 5, date := "2024-01-31",
    import_format := "camt052" }

/-- A pre-existing cfonb120 statement. -/
def fxStOldC : Statement :=
  { id := 3, name := "ST240131", company_id := 5, date := "2024-01-31",
    import_format := "cfonb120" }

/-- A newly imported cfonb120 statement identical to `fxStOldC` up to id. -/
def fxStNewC : Statement :=
  { id := 4, name := "ST240131", company_id := 5, date := "2024-01-31",
    import_format := "cfonb120" }

end EbicsFile

namespace EbicsUserID

/-- An `ebics.userid` record restricted to the fields the lifecycle
methods read and write, plus the parent `ebics.config` state
(`self.ebics_config_id.state`). Passphrases are `none` when the field
is `False`/unset in the database. -/
structure UserIdRec where
  state : String
  ebics_passphrase : Option String
  ebics_sig_passphrase : Option String
  ebics_passphrase_store : Bool
  config_state : String
deriving DecidableEq, Repr

/-- A `vals` dict passed to `self.write`: an outer `none` means the key
is absent from the dict (the field keeps its stored value); `some none`
models writing `False` (clearing the field). -/
structure WriteVals where
  state : String
  ebics_passphrase : Option (Option String) := none
  ebics_sig_passphrase : Option (Option String) := none
deriving DecidableEq, Repr

/-- ORM `self.write(vals)` on the modelled fields. -/
def write (rec : UserIdRec) (vals : WriteVals) : UserIdRec :=
  { rec with
    state := vals.state,
    ebics_passphrase := vals.ebics_passphrase.getD rec.ebics_passphrase,
    ebics_sig_passphrase := vals.ebics_sig_passphrase.getD rec.ebics_sig_passphrase }

/-- `ebics_userid.py` `_update_passphrase_vals` (lines 613-621): when
the written state is one of the four post-draft lifecycle states, the
main passphrase is cleared from the `vals` iff the record does not
store passphrases, and the signature passphrase is cleared whenever it
is currently set — independently of `ebics_passphrase_store`. -/
def _update_passphrase_vals (rec : UserIdRec) (vals : WriteVals) : WriteVals :=
  if vals.state = "init" ∨ vals.state = "get_bank_keys" ∨ vals.state = "to_verify"
      ∨ vals.state = "active_keys" then
    let vals :=
      if rec.ebics_passphrase_store then vals
      else { vals with ebics_passphrase := some none }
    if rec.ebics_sig_passphrase.isSome then
      { vals with ebics_sig_passphrase := some none }
    else vals
  else vals

/-- `ebics_userid.py` `set_to_draft` (lines 315-316): writes the state
unconditionally — there is no guard on the parent configuration. -/
def set_to_draft (rec : UserIdRec) : UserIdRec := { rec with state := "draft" }

/-- `ebics_userid.py` `set_to_active_keys` (lines 318-321). -/
def set_to_active_keys (rec : UserIdRec) : UserIdRec :=
  write rec (_update_passphrase_vals rec { state := "active_keys" })

/-- `ebics_userid.py` `set_to_get_bank_keys` (lines 323-332): raises
`UserError` when the parent `ebics.config` is not in draft (key-renewal
safety), else writes state `get_bank_keys` (without
`_update_passphrase_vals`). -/
def set_to_get_bank_keys (rec : UserIdRec) : Except String UserIdRec :=
  if rec.config_state ≠ "draft" then
    .error ("Set the EBICS Configuation record to Draft "
      ++ "before starting the Key Renewal process.")
  else .ok { rec with state := "get_bank_keys" }

/-- `ebics_userid.py` `ebics_init_1` (lines 334-501), restricted to its
guards and its effect on the modelled fields; `wire_ok` abstracts the
key-setup/HEV/INI/HIA exchanges, any failure of which raises before the
final write (state unchanged). -/
def ebics_init_1 (rec : UserIdRec) (wire_ok : Bool) : Except String UserIdRec :=
  if rec.state ≠ "draft" then
    .error "Set state to draft before Bank Key (re)initialisation."
  else if rec.ebics_passphrase = none then .error "Set a passphrase."
  else if wire_ok = false then .error "EBICS Initialisation Error."
  else .ok (write rec (_update_passphrase_vals rec { state := "init" }))

/-- `ebics_userid.py` `ebics_init_2` (lines 503-513): pure operator
confirmation, no network call. -/
def ebics_init_2 (rec : UserIdRec) : Except String UserIdRec :=
  if rec.state ≠ "init" then .error "Set state to Initialisation."
  else .ok (write rec (_update_passphrase_vals rec { state := "get_bank_keys" }))

/-- `ebics_userid.py` `ebics_init_3` (lines 515-572); `wire_ok`
abstracts the HPB exchange. -/
def ebics_init_3 (rec : UserIdRec) (wire_ok : Bool) : Except String UserIdRec :=
  if rec.state ≠ "get_bank_keys" then .error "Set state to Get Keys from Bank."
  else if wire_ok = false then .error "EBICS Functional Error."
  else .ok (write rec (_update_passphrase_vals rec { state := "to_verify" }))

/-- `ebics_userid.py` `ebics_init_4` (lines 574-595); `wire_ok`
abstracts `bank.activate_keys()`. -/
def ebics_init_4 (rec : UserIdRec) (wire_ok : Bool) : Except String UserIdRec :=
  if rec.state ≠ "to_verify" then .error "Set state to Verification."
  else if wire_ok = false then .error "EBICS Error."
  else .ok (write rec (_update_passphrase_vals rec { state := "active_keys" }))

/-- The operator entering the main passphrase on the form (`ebics_passphrase`
is an ordinary stored `Char` field, lines 100-110); the
`_check_ebics_passphrase` constraint demands length at least 8. -/
def write_passphrase (rec : UserIdRec) (p : String) : UserIdRec :=
  { rec with ebics_passphrase := some p }

/-- The operator entering the signature passphrase on the form
(`ebics_sig_passphrase` is an ordinary stored `Char` field,
lines 120-126, shown only in state draft); the
`_check_ebics_sig_passphrase` constraint demands length at least 8. -/
def write_sig_passphrase (rec : UserIdRec) (p : String) : UserIdRec :=
  { rec with ebics_sig_passphrase := some p }

/-- The records reachable from a freshly created `ebics.userid`
(state `draft`, no passphrases stored) through operator field writes
and the lifecycle methods, each applied only when it succeeds. -/
inductive Reachable : UserIdRec → Prop
  | start (store : Bool) (cfg : String) :
      Reachable { state := "draft", ebics_passphrase := none,
                  ebics_sig_passphrase := none,
                  ebics_passphrase_store := store, config_state := cfg }
  | set_pass {r : UserIdRec} {p : String} :
      Reachable r → 8 ≤ p.length → Reachable (write_passphrase r p)
  | set_sig {r : UserIdRec} {p : String} :
      Reachable r → r.state = "draft" → 8 ≤ p.length →
      Reachable (write_sig_passphrase r p)
  | init1 {r r' : UserIdRec} {ok : Bool} :
      Reachable r → ebics_init_1 r ok = .ok r' → Reachable r'
  | init2 {r r' : UserIdRec} :
      Reachable r → ebics_init_2 r = .ok r' → Reachable r'
  | init3 {r r' : UserIdRec} {ok : Bool} :
      Reachable r → ebics_init_3 r ok = .ok r' → Reachable r'
  | init4 {r r' : UserIdRec} {ok : Bool} :
      Reachable r → ebics_init_4 r ok = .ok r' → Reachable r'
  | to_draft {r : UserIdRec} : Reachable r → Reachable (set_to_draft r)
  | to_active {r : UserIdRec} : Reachable r → Reachable (set_to_active_keys r)
  | to_get_bank_keys {r r' : UserIdRec} :
      Reachable r → set_to_get_bank_keys r = .ok r' → Reachable r'

end EbicsUserID

/-- C1: the live successor implementation (`ebics_config.py`
`_update_order_number`, the one invoked from `_ebics_upload` and
`ebics_init_1`) maps `"ZZZZ"` to `"0000"`, not to `"A000"` as the spec
requires; `"0000"` is moreover rejected by the very
`_check_order_number` constraint of the model, so persisting it raises `UserError`.
The wizard variant (`ebics_xfer.py`) does wrap `"ZZZZ"` to `"A000"`. -/
theorem c1_config_overflow_bug :
    EbicsConfig._update_order_number "ZZZZ" = "0000" ∧
    check_order_number "0000" = false ∧
    EbicsXfer._update_order_number "ZZZZ" = "A000" := by
  refine ⟨by decide, by decide, by decide⟩

/-- C9: there is a valid 4-character order number containing the digit
`'Z'` on which the two in-tree successor implementations disagree: on
`"A00Z"` the `ebics_config.py` variant resets the `'Z'` to `'0'` and
continues the carry (giving `"A010"`), while the `ebics_xfer.py` variant
leaves the `'Z'` unchanged and continues the carry (giving `"A01Z"`),
so the two implementations are not extensionally equal. -/
theorem c9_order_number_variants_differ :
    ∃ s : String, check_order_number s = true ∧
      s.toList.contains 'Z' = true ∧
      EbicsConfig._update_order_number s = "A010" ∧
      EbicsXfer._update_order_number s = "A01Z" ∧
      EbicsConfig._update_order_number s ≠ EbicsXfer._update_order_number s := by
  refine ⟨"A00Z", by decide, by decide, by decide, by decide, by decide⟩

/-- C2 counterexample: an upload on an H003 connection whose wire call
raises `EbicsFunctionalError` still advances the persisted order number
(from `"A000"` to `"A001"`), because `_ebics_upload` runs the
`_update_order_number` block after the `try`/`except`, unconditionally
on the outcome; the claim says the order number is unchanged on a
`FunctionalError`. -/
theorem c2_counterexample :
    (EbicsXfer._ebics_upload
        { ebics_version := "H003", client_ok := true,
          outcome := .functionalError "EBICS_PROCESSING_ERROR" "091116" }
        "A000").order_number = "A001" ∧ ("A001" : String) ≠ "A000" := by
  refine ⟨by decide, by decide⟩

/-- C2 amended: on an H003 connection, `_ebics_upload` advances the
persisted order number exactly one successor step whenever the client
setup succeeded — on success and on `FunctionalError` (or any other
error) alike; the order number is unchanged only when the client setup
failed or the protocol version is not H003. -/
theorem c2_h003_order_number_update (env : EbicsXfer.UploadEnv) (n : String) :
    (env.client_ok = true → env.ebics_version = "H003" →
      (EbicsXfer._ebics_upload env n).order_number =
        EbicsConfig._update_order_number n) ∧
    (env.client_ok = false → (EbicsXfer._ebics_upload env n).order_number = n) ∧
    (env.ebics_version ≠ "H003" →
      (EbicsXfer._ebics_upload env n).order_number = n) := by
  obtain ⟨v, c, o⟩ := env
  refine ⟨fun hc hv => ?_, fun hc => ?_, fun hv => ?_⟩
  · subst hc; cases o <;> simp_all [EbicsXfer._ebics_upload]
  · subst hc; cases o <;> simp_all [EbicsXfer._ebics_upload]
  · cases c <;> cases o <;> simp_all [EbicsXfer._ebics_upload]

/-- C2 witness: a concrete successful H003 upload advances the order
number by one successor step. -/
theorem c2_h003_order_number_update_witness :
    (EbicsXfer._ebics_upload
        { ebics_version := "H003", client_ok := true, outcome := .success "A042" }
        "A000").order_number = EbicsConfig._update_order_number "A000" :=
  (c2_h003_order_number_update
    { ebics_version := "H003", client_ok := true, outcome := .success "A042" }
    "A000").1 rfl rfl

/-- C3 counterexample: calling `process` on a file already in state
`"done"` whose format has a process method is not rejected: the call
returns successfully, re-runs the import pipeline of the format (second
component `true`) and leaves the state `"done"`; the claim says it
fails with an error. -/
theorem c3_counterexample :
    EbicsFile.process { state := "done", download_process_method := "camt.053" } =
      .ok ({ state := "done", download_process_method := "camt.053" }, true) := rfl

/-- C3 amended: `process` performs no check of the current state: for
any file whose format has a process method it runs the import pipeline
and sets the state to `"done"` — also when the file is already done —
and it fails (via `_process_undefined_format`) exactly for formats
outside the dispatch table, leaving the state unchanged. Idempotency
of re-processing is delegated to the duplicate check, not enforced by
`process` itself. -/
theorem c3_process_no_state_guard (f : EbicsFile.EbicsFileRec) :
    (f.download_process_method ∈ EbicsFile.ff_process_method_keys →
      EbicsFile.process f = .ok ({ f with state := "done" }, true)) ∧
    (f.download_process_method ∉ EbicsFile.ff_process_method_keys →
      EbicsFile.process f =
        .error ("The current version of the account_ebics module has no support "
          ++ "to automatically process EBICS files with format "
          ++ f.download_process_method ++ ".")) := by
  refine ⟨fun h => ?_, fun h => ?_⟩ <;> simp [EbicsFile.process, h]

/-- C3 witness: a concrete draft cfonb120 file is processed and ends in
state done. -/
theorem c3_process_no_state_guard_witness :
    EbicsFile.process { state := "draft", download_process_method := "cfonb120" } =
      .ok ({ state := "done", download_process_method := "cfonb120" }, true) :=
  (c3_process_no_state_guard
    { state := "draft", download_process_method := "cfonb120" }).1 (by decide)

/-- The per-format download loop: the error counter counts exactly the
formats whose outcome is an error, and the created files are the
concatenation of the files of every format — also of the formats that come
after a failing one. -/
lemma ebics_download_loop_spec
    (outcome : EbicsXfer.FileFormat → EbicsXfer.DownloadOutcome)
    (fmts : List EbicsXfer.FileFormat) (e : Nat) (note files : List String) :
    (EbicsXfer.ebics_download_loop outcome fmts e note files).1 =
      e + (fmts.filter fun df => EbicsXfer.outcome_err (outcome df)).length ∧
    (EbicsXfer.ebics_download_loop outcome fmts e note files).2.2 =
      files ++ (fmts.map fun df => EbicsXfer.outcome_files (outcome df)).flatten := by
  induction fmts generalizing e note files with
  | nil => simp [EbicsXfer.ebics_download_loop]
  | cons df rest ih =>
    cases h : outcome df <;>
      simp [EbicsXfer.ebics_download_loop, h, EbicsXfer.outcome_err,
        EbicsXfer.outcome_files, ih, Nat.add_assoc, Nat.add_comm]

/-- C8: in a batch download over a list of file formats, the transfer
of each format is attempted independently: every error outcome is
caught and counted into the report, and the files of all successful
formats are created, including those processed after a failure — the
failure of one format never aborts the transfers of sibling formats. -/
theorem c8_batch_isolation
    (outcome : EbicsXfer.FileFormat → EbicsXfer.DownloadOutcome)
    (download_formats : List EbicsXfer.FileFormat) :
    (EbicsXfer.ebics_download outcome download_formats).1 =
      (download_formats.filter fun df => EbicsXfer.outcome_err (outcome df)).length ∧
    (EbicsXfer.ebics_download outcome download_formats).2.2 =
      (download_formats.map fun df => EbicsXfer.outcome_files (outcome df)).flatten := by
  have h := ebics_download_loop_spec outcome download_formats 0 [] []
  simpa [EbicsXfer.ebics_download] using h

/-- C10 counterexample: on a subscriber whose parent configuration is in
state `"confirm"` (not draft), `set_to_draft` is not blocked: it
succeeds and writes state `"draft"`; the claim says the transition
fails with an error whenever the parent connection is not draft. -/
theorem c10_counterexample :
    (EbicsUserID.set_to_draft
        { state := "active_keys", ebics_passphrase := none,
          ebics_sig_passphrase := none, ebics_passphrase_store := true,
          config_state := "confirm" }).state = "draft" ∧
      ("confirm" : String) ≠ "draft" := by
  refine ⟨rfl, by decide⟩

/-- C10 amended: `set_to_draft` always succeeds and writes state draft,
with no guard on the parent configuration; the parent-must-be-draft
guard (key-renewal safety) instead protects `set_to_get_bank_keys`,
which raises and leaves the record unchanged when the parent
configuration is not draft and succeeds otherwise. -/
theorem c10_set_to_draft_unguarded (rec : EbicsUserID.UserIdRec) :
    EbicsUserID.set_to_draft rec = { rec with state := "draft" } ∧
    (rec.config_state ≠ "draft" →
      EbicsUserID.set_to_get_bank_keys rec =
        .error ("Set the EBICS Configuation record to Draft "
          ++ "before starting the Key Renewal process.")) ∧
    (rec.config_state = "draft" →
      EbicsUserID.set_to_get_bank_keys rec =
        .ok { rec with state := "get_bank_keys" }) := by
  refine ⟨rfl, fun h => ?_, fun h => ?_⟩ <;>
    simp [EbicsUserID.set_to_get_bank_keys, h]

/-- C10 witness: with the parent configuration in draft, a concrete
`set_to_get_bank_keys` call succeeds. -/
theorem c10_set_to_draft_unguarded_witness :
    EbicsUserID.set_to_get_bank_keys
        { state := "active_keys", ebics_passphrase := none,
          ebics_sig_passphrase := none, ebics_passphrase_store := true,
          config_state := "draft" } =
      .ok { state := "get_bank_keys", ebics_passphrase := none,
            ebics_sig_passphrase := none, ebics_passphrase_store := true,
            config_state := "draft" } :=
  (c10_set_to_draft_unguarded
    { state := "active_keys", ebics_passphrase := none,
      ebics_sig_passphrase := none, ebics_passphrase_store := true,
      config_state := "draft" }).2.2 rfl

/-- Shape of a successful `ebics_init_1`: the written record. -/
lemma ebics_init_1_ok {rec r' : EbicsUserID.UserIdRec} {ok : Bool}
    (h : EbicsUserID.ebics_init_1 rec ok = .ok r') :
    r' = EbicsUserID.write rec
      (EbicsUserID._update_passphrase_vals rec { state := "init" }) := by
  rw [EbicsUserID.ebics_init_1] at h
  split at h
  · cases h
  · split at h
    · cases h
    · split at h
      · cases h
      · cases h; rfl

/-- Shape of a successful `ebics_init_2`: the written record. -/
lemma ebics_init_2_ok {rec r' : EbicsUserID.UserIdRec}
    (h : EbicsUserID.ebics_init_2 rec = .ok r') :
    r' = EbicsUserID.write rec
      (EbicsUserID._update_passphrase_vals rec { state := "get_bank_keys" }) := by
  rw [EbicsUserID.ebics_init_2] at h
  split at h
  · cases h
  · cases h; rfl

/-- Shape of a successful `ebics_init_3`: the written record. -/
lemma ebics_init_3_ok {rec r' : EbicsUserID.UserIdRec} {ok : Bool}
    (h : EbicsUserID.ebics_init_3 rec ok = .ok r') :
    r' = EbicsUserID.write rec
      (EbicsUserID._update_passphrase_vals rec { state := "to_verify" }) := by
  rw [EbicsUserID.ebics_init_3] at h
  split at h
  · cases h
  · split at h
    · cases h
    · cases h; rfl

/-- Shape of a successful `ebics_init_4`: the written record. -/
lemma ebics_init_4_ok {rec r' : EbicsUserID.UserIdRec} {ok : Bool}
    (h : EbicsUserID.ebics_init_4 rec ok = .ok r') :
    r' = EbicsUserID.write rec
      (EbicsUserID._update_passphrase_vals rec { state := "active_keys" }) := by
  rw [EbicsUserID.ebics_init_4] at h
  split at h
  · cases h
  · split at h
    · cases h
    · cases h; rfl

/-- Writing any lifecycle-state `vals` through `_update_passphrase_vals`
leaves no stored signature passphrase, whatever the
`ebics_passphrase_store` flag. -/
lemma upv_write_sig_none (rec : EbicsUserID.UserIdRec) (vals : EbicsUserID.WriteVals)
    (hv : vals.ebics_sig_passphrase = none)
    (hs : vals.state = "init" ∨ vals.state = "get_bank_keys" ∨
      vals.state = "to_verify" ∨ vals.state = "active_keys") :
    (EbicsUserID.write rec
        (EbicsUserID._update_passphrase_vals rec vals)).ebics_sig_passphrase = none := by
  rw [EbicsUserID._update_passphrase_vals, if_pos hs]
  cases hstore : rec.ebics_passphrase_store <;>
    cases hsig : rec.ebics_sig_passphrase <;>
      simp [EbicsUserID.write, hsig, hv]

/-- C5 counterexample: the signature passphrase is an ordinary stored
field of the subscriber record — `ebics_init_1` reads it from the
record — so a reachable state persists it: starting from a fresh
subscriber (even with `ebics_passphrase_store` enabled), the operator
entering the signature passphrase on the draft form yields a stored
record whose `ebics_sig_passphrase` is set; the claim says it is never
persisted at any reachable point. -/
theorem c5_counterexample :
    EbicsUserID.Reachable
        { state := "draft", ebics_passphrase := none,
          ebics_sig_passphrase := some "12345678",
          ebics_passphrase_store := true, config_state := "confirm" } ∧
      ({ state := "draft", ebics_passphrase := none,
         ebics_sig_passphrase := some "12345678",
         ebics_passphrase_store := true,
         config_state := "confirm" } : EbicsUserID.UserIdRec).ebics_sig_passphrase
        ≠ none := by
  constructor
  · exact EbicsUserID.Reachable.set_sig
      (EbicsUserID.Reachable.start true "confirm") rfl (by decide)
  · simp

/-- C5 amended: the signature passphrase is persisted in the stored
record from the moment the operator enters it (in draft) until the
next lifecycle transition; every transition that goes through
`_update_passphrase_vals` — `ebics_init_1..4` and `set_to_active_keys`
— wipes it from the stored record, and does so regardless of the main
`ebics_passphrase_store` setting (which only governs the main
passphrase). -/
theorem c5_sig_passphrase_wiped (rec r' : EbicsUserID.UserIdRec) (ok : Bool) :
    (EbicsUserID.ebics_init_1 rec ok = .ok r' → r'.ebics_sig_passphrase = none) ∧
    (EbicsUserID.ebics_init_2 rec = .ok r' → r'.ebics_sig_passphrase = none) ∧
    (EbicsUserID.ebics_init_3 rec ok = .ok r' → r'.ebics_sig_passphrase = none) ∧
    (EbicsUserID.ebics_init_4 rec ok = .ok r' → r'.ebics_sig_passphrase = none) ∧
    (EbicsUserID.set_to_active_keys rec).ebics_sig_passphrase = none := by
  refine ⟨fun h => ?_, fun h => ?_, fun h => ?_, fun h => ?_, ?_⟩
  · rw [ebics_init_1_ok h]
    exact upv_write_sig_none rec _ rfl (Or.inl rfl)
  · rw [ebics_init_2_ok h]
    exact upv_write_sig_none rec _ rfl (Or.inr (Or.inl rfl))
  · rw [ebics_init_3_ok h]
    exact upv_write_sig_none rec _ rfl (Or.inr (Or.inr (Or.inl rfl)))
  · rw [ebics_init_4_ok h]
    exact upv_write_sig_none rec _ rfl (Or.inr (Or.inr (Or.inr rfl)))
  · exact upv_write_sig_none rec _ rfl (Or.inr (Or.inr (Or.inr rfl)))

/-- C5 witness: a concrete `ebics_init_2` on a subscriber holding both
passphrases (with passphrase storing disabled) succeeds and the
resulting stored record has no signature passphrase. -/
theorem c5_sig_passphrase_wiped_witness :
    EbicsUserID.ebics_init_2
        { state := "init", ebics_passphrase := some "AStrongPw",
          ebics_sig_passphrase := some "12345678",
          ebics_passphrase_store := false, config_state := "draft" } =
      .ok { state := "get_bank_keys", ebics_passphrase := none,
            ebics_sig_passphrase := none, ebics_passphrase_store := false,
            config_state := "draft" } ∧
    ({ state := "get_bank_keys", ebics_passphrase := none,
       ebics_sig_passphrase := none, ebics_passphrase_store := false,
       config_state := "draft" } : EbicsUserID.UserIdRec).ebics_sig_passphrase
      = none := by
  refine ⟨rfl, (c5_sig_passphrase_wiped
    { state := "init", ebics_passphrase := some "AStrongPw",
      ebics_sig_passphrase := some "12345678",
      ebics_passphrase_store := false, config_state := "draft" }
    { state := "get_bank_keys", ebics_passphrase := none,
      ebics_sig_passphrase := none, ebics_passphrase_store := false,
      config_state := "draft" } true).2.1 rfl⟩

/-- The (currency, journal) component of `_lookup_journal` does not
depend on `res` and equals `lookup_journal_pure`. -/
lemma lookup_journal_snd (env : EbicsFile.Env) (res : EbicsFile.ProcessRes)
    (acc_number currency_code : String) :
    (EbicsFile._lookup_journal env res acc_number currency_code).2 =
      EbicsFile.lookup_journal_pure env acc_number currency_code := by
  rcases hc : EbicsFile.search_currency env currency_code with _ | c
  · simp [EbicsFile._lookup_journal, EbicsFile.lookup_journal_pure, hc]
  · by_cases hcand : EbicsFile.candidate_journals env acc_number = []
    · simp [EbicsFile._lookup_journal, EbicsFile.lookup_journal_pure, hc, hcand]
    · rcases hh : (EbicsFile.compatible_journals env acc_number c).head? with _ | j <;>
        simp [EbicsFile._lookup_journal, EbicsFile.lookup_journal_pure, hc, hcand, hh]

/-- A successful pure lookup makes `_lookup_journal` return the journal
with `res` untouched. -/
lemma lookup_journal_ok (env : EbicsFile.Env) (res : EbicsFile.ProcessRes)
    (acc_number currency_code : String)
    (h : (EbicsFile.lookup_journal_pure env acc_number currency_code).2.isSome = true) :
    ∃ c j, EbicsFile._lookup_journal env res acc_number currency_code =
      (res, some c, some j) := by
  rw [EbicsFile.lookup_journal_pure] at h
  rcases hc : EbicsFile.search_currency env currency_code with _ | c
  · simp [hc] at h
  · by_cases hcand : EbicsFile.candidate_journals env acc_number = []
    · simp [hc, hcand] at h
    · rcases hh : (EbicsFile.compatible_journals env acc_number c).head? with _ | j
      · simp [hc, hcand, hh] at h
      · exact ⟨c, j, by simp [EbicsFile._lookup_journal, hc, hcand, hh]⟩

/-- C6 counterexample: in an environment where two bank journals match
the same sanitized account number and are both EUR-compatible,
`_lookup_journal` does not record an error and does not skip the
section: it silently selects the first matching journal in search
order; the claim says an ambiguous match must be reported as an error
and yield no journal. -/
theorem c6_counterexample :
    (EbicsFile.compatible_journals EbicsFile.fxEnvAmbiguous "BE48306947070286"
        EbicsFile.fxEUR).length = 2 ∧
    EbicsFile._lookup_journal EbicsFile.fxEnvAmbiguous EbicsFile.fxRes
        "BE48306947070286" "EUR" =
      (EbicsFile.fxRes, some EbicsFile.fxEUR, some EbicsFile.fxJournalA) := by
  refine ⟨by decide, by decide⟩

/-- C6 amended: whenever `_lookup_journal` yields no journal (unknown
currency, no account-matching bank journal, or none currency-compatible)
it appends exactly one error notification and the section is skipped;
but when the currency is known, the returned journal is the *first*
currency-compatible candidate in search order — in particular, when
several journals match, one of them is selected silently rather than
reported as an ambiguity error. -/
theorem c6_lookup_first_match (env : EbicsFile.Env) (res : EbicsFile.ProcessRes)
    (acc_number currency_code : String) :
    ((EbicsFile._lookup_journal env res acc_number currency_code).2.2 = none →
      ∃ m, (EbicsFile._lookup_journal env res acc_number currency_code).1 =
        EbicsFile.addError res m) ∧
    (∀ c, EbicsFile.search_currency env currency_code = some c →
      (EbicsFile._lookup_journal env res acc_number currency_code).2.2 =
        (EbicsFile.compatible_journals env acc_number c).head? ∧
      (EbicsFile.compatible_journals env acc_number c ≠ [] →
        (EbicsFile._lookup_journal env res acc_number currency_code).1 = res)) := by
  rcases hc : EbicsFile.search_currency env currency_code with _ | c
  · refine ⟨fun _ => ⟨"Currency " ++ currency_code ++ " not found.", ?_⟩,
      fun c' hcc => ?_⟩
    · simp [EbicsFile._lookup_journal, hc]
    · cases hcc
  · by_cases hcand : EbicsFile.candidate_journals env acc_number = []
    · have hcomp : EbicsFile.compatible_journals env acc_number c = [] := by
        rw [EbicsFile.compatible_journals, hcand]; rfl
      refine ⟨fun _ => ⟨EbicsFile.no_journal_message acc_number currency_code, ?_⟩,
        fun c' hcc => ?_⟩
      · simp [EbicsFile._lookup_journal, hc, hcand]
      · cases hcc
        refine ⟨?_, fun hne => absurd hcomp hne⟩
        simp [EbicsFile._lookup_journal, hc, hcand, hcomp]
    · rcases hh : (EbicsFile.compatible_journals env acc_number c).head? with _ | j
      · rw [List.head?_eq_none_iff] at hh
        refine ⟨fun _ => ⟨EbicsFile.no_journal_message acc_number currency_code, ?_⟩,
          fun c' hcc => ?_⟩
        · simp [EbicsFile._lookup_journal, hc, hcand, hh]
        · cases hcc
          exact ⟨by simp [EbicsFile._lookup_journal, hc, hcand, hh],
            fun hne => absurd hh hne⟩
      · refine ⟨fun hnone => ?_, fun c' hcc => ?_⟩
        · rw [EbicsFile._lookup_journal] at hnone
          simp [hc, hcand, hh] at hnone
        · cases hcc
          exact ⟨by simp [EbicsFile._lookup_journal, hc, hcand, hh],
            fun _ => by simp [EbicsFile._lookup_journal, hc, hcand, hh]⟩

/-- C6 witness: on the concrete two-journal environment, the returned
journal is the head of the (two-element) compatible-journal list. -/
theorem c6_lookup_first_match_witness :
    (EbicsFile._lookup_journal EbicsFile.fxEnvAmbiguous EbicsFile.fxRes
        "BE48306947070286" "EUR").2.2 =
      (EbicsFile.compatible_journals EbicsFile.fxEnvAmbiguous "BE48306947070286"
        EbicsFile.fxEUR).head? :=
  ((c6_lookup_first_match EbicsFile.fxEnvAmbiguous EbicsFile.fxRes
      "BE48306947070286" "EUR").2 EbicsFile.fxEUR (by decide)).1

/-- C4 counterexample: a newly created `camt052` statement with an
identical pre-existing statement (same name, company, date and import
format) is left completely untouched by `_statement_duplicate_check` —
no warning, its id stays in the result set, nothing is deleted —
because `camt052` is not in `DUP_CHECK_FORMATS = [cfonb120, camt053]`;
the claim says all camt-sourced statements are checked. -/
theorem c4_counterexample :
    0 < EbicsFile.dup_count [EbicsFile.fxStOld, EbicsFile.fxStNew] EbicsFile.fxStNew ∧
    EbicsFile._statement_duplicate_check [EbicsFile.fxStOld, EbicsFile.fxStNew]
        { statement_ids := [2], notifications := [] } [EbicsFile.fxStNew] =
      ({ statement_ids := [2], notifications := [] }, [EbicsFile.fxStNew], []) := by
  refine ⟨by decide, by decide⟩

/-- C4 amended: the duplicate check applies exactly to the statements
whose `import_format` is in the hardcoded `DUP_CHECK_FORMATS =
["cfonb120", "camt053"]`: for such a statement with another identical
(name, company, date, import_format) statement in the table, a warning
is reported, its id is removed from the result set and it is deleted;
statements of any other format — including `camt052` and `camt054` —
are left untouched. -/
theorem c4_dup_check_scope (db : List EbicsFile.Statement)
    (res : EbicsFile.ProcessRes) (sts : List EbicsFile.Statement)
    (st : EbicsFile.Statement) (hmem : st ∈ sts) :
    (st.import_format ∈ EbicsFile.DUP_CHECK_FORMATS →
      0 < EbicsFile.dup_count db st →
      (({ ntype := "warning", message := EbicsFile.dup_message st } :
            EbicsFile.Notification) ∈
          (EbicsFile._statement_duplicate_check db res sts).1.notifications ∧
        st.id ∉ (EbicsFile._statement_duplicate_check db res sts).1.statement_ids ∧
        st ∉ (EbicsFile._statement_duplicate_check db res sts).2.1 ∧
        st ∈ (EbicsFile._statement_duplicate_check db res sts).2.2)) ∧
    (st.import_format ∉ EbicsFile.DUP_CHECK_FORMATS →
      (st ∈ (EbicsFile._statement_duplicate_check db res sts).2.1 ∧
        st ∉ (EbicsFile._statement_duplicate_check db res sts).2.2)) := by
  have hU : ∀ u : EbicsFile.Statement,
      (u ∈ (sts.filter
            (fun s => decide (s.import_format ∈ EbicsFile.DUP_CHECK_FORMATS))).filter
          (fun s => decide (0 < EbicsFile.dup_count db s))) ↔
        (u ∈ sts ∧ u.import_format ∈ EbicsFile.DUP_CHECK_FORMATS ∧
          0 < EbicsFile.dup_count db u) := by
    intro u
    simp only [List.mem_filter, decide_eq_true_eq, and_assoc]
  simp only [EbicsFile._statement_duplicate_check]
  constructor
  · intro hf hd
    have hin := (hU st).mpr ⟨hmem, hf, hd⟩
    refine ⟨?_, ?_, ?_, hin⟩
    · simp only [List.mem_append, List.mem_map]
      exact Or.inr ⟨st, hin, rfl⟩
    · intro hids
      rw [List.mem_filter] at hids
      exact (of_decide_eq_true hids.2)
        (List.mem_map_of_mem (fun u => u.id) hin)
    · intro hsurv
      rw [List.mem_filter] at hsurv
      exact (of_decide_eq_true hsurv.2) hin
  · intro hf
    have hnot : st ∉ (sts.filter
          (fun s => decide (s.import_format ∈ EbicsFile.DUP_CHECK_FORMATS))).filter
        (fun s => decide (0 < EbicsFile.dup_count db s)) :=
      fun hin => hf ((hU st).mp hin).2.1
    refine ⟨?_, hnot⟩
    rw [List.mem_filter]
    exact ⟨hmem, decide_eq_true hnot⟩

/-- C4 witness: a concrete new `cfonb120` statement duplicating a
pre-existing one is warned about, detached from the result set and
deleted. -/
theorem c4_dup_check_scope_witness :
    ({ ntype := "warning", message := EbicsFile.dup_message EbicsFile.fxStNewC } :
        EbicsFile.Notification) ∈
      (EbicsFile._statement_duplicate_check [EbicsFile.fxStOldC, EbicsFile.fxStNewC]
          { statement_ids := [4], notifications := [] }
          [EbicsFile.fxStNewC]).1.notifications ∧
    EbicsFile.fxStNewC.id ∉
      (EbicsFile._statement_duplicate_check [EbicsFile.fxStOldC, EbicsFile.fxStNewC]
          { statement_ids := [4], notifications := [] }
          [EbicsFile.fxStNewC]).1.statement_ids ∧
    EbicsFile.fxStNewC ∉
      (EbicsFile._statement_duplicate_check [EbicsFile.fxStOldC, EbicsFile.fxStNewC]
          { statement_ids := [4], notifications := [] }
          [EbicsFile.fxStNewC]).2.1 ∧
    EbicsFile.fxStNewC ∈
      (EbicsFile._statement_duplicate_check [EbicsFile.fxStOldC, EbicsFile.fxStNewC]
          { statement_ids := [4], notifications := [] }
          [EbicsFile.fxStNewC]).2.2 :=
  (c4_dup_check_scope [EbicsFile.fxStOldC, EbicsFile.fxStNewC]
      { statement_ids := [4], notifications := [] } [EbicsFile.fxStNewC]
      EbicsFile.fxStNewC (by decide)).1 (by decide) (by decide)

/-- A section without transaction entries never yields a chunk. -/
lemma split_camt_step_none (env : EbicsFile.Env) (res : EbicsFile.ProcessRes)
    (s : EbicsFile.CamtSection) (h0 : s.entries = 0) :
    ∃ res', EbicsFile._split_camt_step env res s = (res', none) := by
  rw [EbicsFile._split_camt_step]
  by_cases hsan : EbicsFile.sanitize_account_number s.acc_id_text = ""
  · exact ⟨_, by rw [if_pos hsan]⟩
  · exact ⟨res, by rw [if_neg hsan, if_pos h0]⟩

/-- A resolving section with transactions yields its chunk and leaves
`res` untouched. -/
lemma split_camt_step_some (env : EbicsFile.Env) (res : EbicsFile.ProcessRes)
    (s : EbicsFile.CamtSection) (hr : EbicsFile.camt_resolves env s = true)
    (h0 : ¬s.entries = 0) :
    ∃ j : EbicsFile.Journal, EbicsFile._split_camt_step env res s =
      (res, some { acc_number := EbicsFile.camt_acc_number s, journal_id := j.id,
                   company_id := j.company_id, data := s }) := by
  rw [EbicsFile.camt_resolves, Bool.and_eq_true] at hr
  have hsan : ¬EbicsFile.sanitize_account_number s.acc_id_text = "" :=
    of_decide_eq_true hr.1
  obtain ⟨c, j, hlu⟩ := lookup_journal_ok env res (EbicsFile.camt_acc_number s)
    s.currency_code hr.2
  refine ⟨j, ?_⟩
  rw [EbicsFile._split_camt_step, if_neg hsan, if_neg h0, hlu]

/-- The chunks of `_split_camt` are exactly the sections with
transactions, provided each of those resolves. -/
lemma split_camt_data (env : EbicsFile.Env) (sections : List EbicsFile.CamtSection)
    (h : ∀ s ∈ sections, 0 < s.entries → EbicsFile.camt_resolves env s = true) :
    ∀ res : EbicsFile.ProcessRes,
      ((EbicsFile._split_camt env res sections).2.map fun c => c.data) =
        sections.filter fun s => decide (0 < s.entries) := by
  induction sections with
  | nil => intro res; simp [EbicsFile._split_camt]
  | cons s rest ih =>
    intro res
    have hrest : ∀ t ∈ rest, 0 < t.entries → EbicsFile.camt_resolves env t = true :=
      fun t ht => h t (List.mem_cons_of_mem _ ht)
    by_cases h0 : s.entries = 0
    · obtain ⟨res', hstep⟩ := split_camt_step_none env res s h0
      simp only [EbicsFile._split_camt, hstep]
      rw [ih hrest res']
      simp [List.filter_cons, h0]
    · have hres := h s (List.mem_cons_self s rest) (Nat.pos_of_ne_zero h0)
      obtain ⟨j, hstep⟩ := split_camt_step_some env res s hres h0
      simp only [EbicsFile._split_camt, hstep]
      rcases hsp : EbicsFile._split_camt env res rest with ⟨res'', datas⟩
      have hih := ih hrest res
      rw [hsp] at hih
      simp only [hsp, List.map_cons, hih]
      simp [List.filter_cons, Nat.pos_of_ne_zero h0]

/-- The cfonb loop appends one chunk per complete statement containing
a transaction record, provided each terminator line resolves. -/
lemma split_cfonb_loop_count (env : EbicsFile.Env) (lines : List EbicsFile.CfonbLine)
    (h : ∀ l ∈ lines, l.rec_type = "07" → EbicsFile.cfonb_resolves env l = true) :
    ∀ (res : EbicsFile.ProcessRes) (st_lines : List EbicsFile.CfonbLine)
      (tx : Bool) (datas : List EbicsFile.CfonbChunk),
      (EbicsFile._split_cfonb_loop env lines res st_lines tx datas).2.length =
        datas.length + EbicsFile.cfonb_tx_sections lines tx := by
  induction lines with
  | nil =>
    intro res st tx datas
    simp [EbicsFile._split_cfonb_loop, EbicsFile.cfonb_tx_sections]
  | cons line rest ih =>
    intro res st tx datas
    have hrest : ∀ l ∈ rest, l.rec_type = "07" →
        EbicsFile.cfonb_resolves env l = true :=
      fun l hl => h l (List.mem_cons_of_mem _ hl)
    have h74 : (decide (("07" : String) = "04")) = false := by decide
    by_cases h07 : line.rec_type = "07"
    · cases tx with
      | true =>
        have hres := h line (List.mem_cons_self _ _) h07
        rw [EbicsFile.cfonb_resolves] at hres
        obtain ⟨c, j, hlu⟩ :=
          lookup_journal_ok env res line.acc_number line.currency_code hres
        simp only [EbicsFile._split_cfonb_loop, EbicsFile.cfonb_tx_sections,
          h07, h74, Bool.or_false, if_true, hlu, ih hrest]
        simp
        omega
      | false =>
        simp only [EbicsFile._split_cfonb_loop, EbicsFile.cfonb_tx_sections,
          h07, h74, Bool.or_false]
        simp only [if_true, Bool.false_eq_true, if_false]
        rw [Nat.zero_add]
        exact ih hrest res [] false datas
    · simp only [EbicsFile._split_cfonb_loop, EbicsFile.cfonb_tx_sections]
      rw [if_neg h07, if_neg h07]
      exact ih hrest res (st ++ [line]) _ datas

/-- C7 counterexample: a payload with one section containing one
transaction entry (`k = 1`) whose account resolves to no journal
yields zero chunks, not `k`: unresolved sections are dropped with an
error, so the chunk count is not determined by the transaction count
alone. -/
theorem c7_counterexample :
    (EbicsFile._split_camt EbicsFile.fxEnvNoJournal EbicsFile.fxRes
        [EbicsFile.fxCamtTx]).2.length = 0 ∧
    ([EbicsFile.fxCamtTx].filter fun s => decide (0 < s.entries)).length = 1 ∧
    (EbicsFile._split_camt EbicsFile.fxEnvNoJournal EbicsFile.fxRes
        [EbicsFile.fxCamtTx]).2.length ≠
      ([EbicsFile.fxCamtTx].filter fun s => decide (0 < s.entries)).length := by
  refine ⟨by decide, by decide, by decide⟩

/-- C7 amended: the split yields exactly one chunk per section with at
least one transaction entry *that resolves* (nonempty sanitized account
number and a journal match): under that proviso, the chunks of
`_split_camt` are exactly the transaction-bearing sections in document order (so
empty sections are discarded), and `_split_cfonb` yields one chunk per
complete statement containing a transaction record whose terminator
resolves. -/
theorem c7_split_chunk_count (env : EbicsFile.Env)
    (res res2 : EbicsFile.ProcessRes)
    (sections : List EbicsFile.CamtSection) (lines : List EbicsFile.CfonbLine)
    (hs : ∀ s ∈ sections, 0 < s.entries → EbicsFile.camt_resolves env s = true)
    (hl : ∀ l ∈ lines, l.rec_type = "07" → EbicsFile.cfonb_resolves env l = true) :
    ((EbicsFile._split_camt env res sections).2.map fun c => c.data) =
      (sections.filter fun s => decide (0 < s.entries)) ∧
    (EbicsFile._split_cfonb env res2 lines).2.length =
      EbicsFile.cfonb_tx_sections lines false := by
  refine ⟨split_camt_data env sections hs res, ?_⟩
  rw [EbicsFile._split_cfonb]
  have hloop := split_cfonb_loop_count env lines hl res2 [] false []
  simpa using hloop

/-- C7 witness: on a concrete environment where the accounts resolve, a
two-section camt payload (one section with two entries, one empty)
yields exactly the transaction-bearing section, and a three-line cfonb
statement with one transaction record yields exactly one chunk. -/
theorem c7_split_chunk_count_witness :
    ((EbicsFile._split_camt EbicsFile.fxEnvOneJournal EbicsFile.fxRes
        [EbicsFile.fxCamtTx, EbicsFile.fxCamtEmpty]).2.map fun c => c.data) =
      ([EbicsFile.fxCamtTx, EbicsFile.fxCamtEmpty].filter
        fun s => decide (0 < s.entries)) ∧
    (EbicsFile._split_cfonb EbicsFile.fxEnvOneJournal EbicsFile.fxRes
        EbicsFile.fxCfonbLines).2.length =
      EbicsFile.cfonb_tx_sections EbicsFile.fxCfonbLines false :=
  c7_split_chunk_count EbicsFile.fxEnvOneJournal EbicsFile.fxRes EbicsFile.fxRes
    [EbicsFile.fxCamtTx, EbicsFile.fxCamtEmpty] EbicsFile.fxCfonbLines
    (by decide) (by decide)

end AccountEbics
